import Mathlib

/-!
Verification development for the RideX booking and forecasting core.

The definitions below are a shallow embedding of the repository's booking
subsystem (backend/models/Booking schema and methods, the POST /api/bookings
handler and the lifecycle endpoints in backend/routes/bookings.js, the seat
enumeration of backend/routes/schedules.js) and of its forecasting service
(forecasting/services/forecastService.js and the backend forecast proxy
route).  Mongoose ObjectIds are modelled as natural numbers, JS Dates as
integer timestamps (calendar days as integer day numbers), JS numbers as
rationals, `Math.random()` values as explicit rational parameters in [0,1),
and a thrown JS exception as `Except.error`.
-/

namespace RideX

/-- Booking status enum of the Booking schema. -/
inductive BStatus
  | pending
  | confirmed
  | cancelled
  | completed
  | no_show
deriving Repr, DecidableEq, BEq

/-- Payment status enum of the Booking schema. -/
inductive PayStatus
  | pending
  | paid
  | refunded
  | failed
deriving Repr, DecidableEq, BEq

/-- A persisted booking document: the fields of the Booking schema that the
lifecycle methods and the seat-conflict check touch. -/
structure Booking where
  user : Nat
  route : Nat
  schedule : Nat
  vehicle : Nat
  travelDate : Int
  seatNumber : String
  fare : Int
  status : BStatus
  paymentStatus : PayStatus
  cancellationReason : Option String
  cancelledAt : Option Int
  cancelledBy : Option Nat
  checkInTime : Option Int
  checkOutTime : Option Int
deriving Repr, DecidableEq, BEq

/-- Result of a fallible JS method: `Except.error msg` models a thrown
`Error(msg)`, which leaves the stored document unchanged. -/
def isErr {α : Type} : Except String α → Bool
  | Except.error _ => true
  | Except.ok _ => false

/-- Extract the document produced by a successful method call. -/
def okVal {α : Type} : Except String α → Option α
  | Except.error _ => none
  | Except.ok a => some a

/-- bookingSchema.methods.cancel: rejects completed and already-cancelled
bookings, otherwise records the cancellation. -/
def Booking.cancel (b : Booking) (reason : Option String) (cancelledBy : Nat)
    (now : Int) : Except String Booking :=
  if b.status = BStatus.completed then
    Except.error "Cannot cancel completed booking"
  else if b.status = BStatus.cancelled then
    Except.error "Booking already cancelled"
  else
    Except.ok { b with
      status := BStatus.cancelled
      cancellationReason := reason
      cancelledAt := some now
      cancelledBy := some cancelledBy }

/-- bookingSchema.methods.confirm: only pending bookings can be confirmed;
confirmation also marks the payment as paid. -/
def Booking.confirm (b : Booking) : Except String Booking :=
  if b.status = BStatus.pending then
    Except.ok { b with status := BStatus.confirmed, paymentStatus := PayStatus.paid }
  else
    Except.error "Only pending bookings can be confirmed"

/-- bookingSchema.methods.complete: only confirmed bookings can be completed. -/
def Booking.complete (b : Booking) (now : Int) : Except String Booking :=
  if b.status = BStatus.confirmed then
    Except.ok { b with status := BStatus.completed, checkOutTime := some now }
  else
    Except.error "Only confirmed bookings can be completed"

/-- bookingSchema.methods.checkIn: only confirmed bookings can be checked in;
the status itself is left at confirmed. -/
def Booking.checkIn (b : Booking) (now : Int) : Except String Booking :=
  if b.status = BStatus.confirmed then
    Except.ok { b with checkInTime := some now }
  else
    Except.error "Only confirmed bookings can be checked in"

/-- Terminal statuses named by the specification. -/
def BStatus.isTerminal : BStatus → Bool
  | BStatus.cancelled => true
  | BStatus.completed => true
  | BStatus.no_show => true
  | _ => false

/-- A booking that holds the seat (scheduleId, travelDate, seatLabel): the
filter of the `findOne` conflict query in POST /api/bookings. -/
def activeFor (sched : Nat) (date : Int) (seat : String) (b : Booking) : Bool :=
  b.schedule == sched && b.travelDate == date && b.seatNumber == seat &&
    (b.status == BStatus.pending || b.status == BStatus.confirmed)

/-- The `findOne` existence pre-check: some pending/confirmed booking already
holds the seat. -/
def seatTaken (store : List Booking) (sched : Nat) (date : Int) (seat : String) : Bool :=
  store.any (activeFor sched date seat)

/-- Number of pending/confirmed bookings holding one seat; the seat-uniqueness
invariant asks this to be at most 1. -/
def countActive (store : List Booking) (sched : Nat) (date : Int) (seat : String) : Nat :=
  (store.filter (activeFor sched date seat)).length

/-- One secondary index declared on the Booking schema. -/
structure MongoIndex where
  keys : List String
  unique : Bool
deriving Repr, DecidableEq

/-- The six `bookingSchema.index(...)` declarations; none of them passes a
`unique` option, so all are plain (non-unique) indexes. -/
def bookingSchemaIndexes : List MongoIndex :=
  [ { keys := ["user", "status"], unique := false },
    { keys := ["route", "travelDate"], unique := false },
    { keys := ["bookingReference"], unique := false },
    { keys := ["travelDate", "status"], unique := false },
    { keys := ["qrCode"], unique := false },
    { keys := ["passengerDetails.idNumber"], unique := false } ]

/-- Field paths carrying a field-level `unique: true` option in the schema. -/
def bookingUniqueFieldPaths : List String :=
  ["bookingReference", "qrCode"]

/-- A schedule document as POST /api/bookings reads it: its id, its route and
its (populated) vehicle. -/
structure Sched where
  id : Nat
  route : Nat
  vehicle : Nat
deriving Repr, DecidableEq

/-- The catalog collections consulted by the handler. -/
structure Catalog where
  routes : List Nat
  schedules : List Sched
deriving Repr, DecidableEq

/-- The body of a seat-reservation request, after express-validator passed. -/
structure ReserveReq where
  userId : Nat
  routeId : Nat
  scheduleId : Nat
  travelDate : Int
  seatNumber : String
  fare : Int
deriving Repr, DecidableEq

/-- The new pending booking document built by the handler. -/
def mkBooking (vehicle : Nat) (req : ReserveReq) : Booking :=
  { user := req.userId
    route := req.routeId
    schedule := req.scheduleId
    vehicle := vehicle
    travelDate := req.travelDate
    seatNumber := req.seatNumber
    fare := req.fare
    status := BStatus.pending
    paymentStatus := PayStatus.pending
    cancellationReason := none
    cancelledAt := none
    cancelledBy := none
    checkInTime := none
    checkOutTime := none }

/-- Outcome of POST /api/bookings. -/
inductive CreateResult
  | routeNotFound
  | scheduleNotFound
  | seatOccupied
  | created (b : Booking)
deriving Repr, DecidableEq

/-- POST /api/bookings run to completion without interleaving: verify the
route, verify the schedule and its route linkage, run the `findOne` seat
pre-check (409 SEAT_OCCUPIED on a hit), then insert the pending booking. -/
def createBookingHandler (cat : Catalog) (store : List Booking) (req : ReserveReq) :
    CreateResult × List Booking :=
  if !(cat.routes.contains req.routeId) then (CreateResult.routeNotFound, store)
  else
    match cat.schedules.find? (fun x => x.id == req.scheduleId) with
    | none => (CreateResult.scheduleNotFound, store)
    | some s =>
      if s.route != req.routeId then (CreateResult.scheduleNotFound, store)
      else if seatTaken store req.scheduleId req.travelDate req.seatNumber then
        (CreateResult.seatOccupied, store)
      else
        let b := mkBooking s.vehicle req
        (CreateResult.created b, b :: store)

/-- The read phase of the handler (route lookup, schedule lookup, `findOne`
seat pre-check) against a given snapshot of the store: returns the booking the
write phase would insert, or none when any check fails. -/
def reservePhaseRead (cat : Catalog) (store : List Booking) (req : ReserveReq) :
    Option Booking :=
  if !(cat.routes.contains req.routeId) then none
  else
    match cat.schedules.find? (fun x => x.id == req.scheduleId) with
    | none => none
    | some s =>
      if s.route != req.routeId then none
      else if seatTaken store req.scheduleId req.travelDate req.seatNumber then none
      else some (mkBooking s.vehicle req)

/-- The check-then-act interleaving of two concurrent reservation requests:
both read phases observe the same initial store (both `findOne` queries
complete before either `save`), then both write phases run. -/
def raceDoubleReserve (cat : Catalog) (store : List Booking) (r1 r2 : ReserveReq) :
    List Booking :=
  let b1 := reservePhaseRead cat store r1
  let b2 := reservePhaseRead cat store r2
  let s1 := match b1 with
    | some b => b :: store
    | none => store
  match b2 with
  | some b => b :: s1
  | none => s1

/-- Outcome of the lifecycle endpoints PUT /api/bookings/:id/cancel, /confirm
and /check-in. -/
inductive LifecycleOutcome
  | notFound
  | forbidden
  | illegalState (msg : String)
  | ok (b : Booking)
deriving Repr, DecidableEq

/-- An authenticated actor's role; `req.user.role` in the routes. -/
inductive Role
  | user
  | admin
  | driver
deriving Repr, DecidableEq

/-- PUT /api/bookings/:id/cancel: 404 when the lookup misses, 403 when the
actor is not the booking's owner (the role is never consulted here), then the
schema cancel method. -/
def cancelEndpoint (found : Option Booking) (actorId : Nat) (role : Role)
    (reason : Option String) (now : Int) : LifecycleOutcome :=
  match found with
  | none => LifecycleOutcome.notFound
  | some b =>
    if b.user ≠ actorId then LifecycleOutcome.forbidden
    else
      match b.cancel reason actorId now with
      | Except.error m => LifecycleOutcome.illegalState m
      | Except.ok b2 => LifecycleOutcome.ok b2

/-- PUT /api/bookings/:id/confirm: same 404/403 shape, then the schema confirm
method; the role is never consulted. -/
def confirmEndpoint (found : Option Booking) (actorId : Nat) (role : Role) :
    LifecycleOutcome :=
  match found with
  | none => LifecycleOutcome.notFound
  | some b =>
    if b.user ≠ actorId then LifecycleOutcome.forbidden
    else
      match b.confirm with
      | Except.error m => LifecycleOutcome.illegalState m
      | Except.ok b2 => LifecycleOutcome.ok b2

/-- PUT /api/bookings/:id/check-in: same 404/403 shape, then the schema
checkIn method; the role is never consulted. -/
def checkInEndpoint (found : Option Booking) (actorId : Nat) (role : Role)
    (now : Int) : LifecycleOutcome :=
  match found with
  | none => LifecycleOutcome.notFound
  | some b =>
    if b.user ≠ actorId then LifecycleOutcome.forbidden
    else
      match b.checkIn now with
      | Except.error m => LifecycleOutcome.illegalState m
      | Except.ok b2 => LifecycleOutcome.ok b2

/-- The express-validator checks of POST /api/bookings, applied to the raw
request: mongo-id shaped ids, ISO-8601-shaped travel date, non-empty trimmed
seat number, numeric fare.  The boolean fields record what the corresponding
format validator concluded about the raw string; the seat string is modelled
as already whitespace-trimmed, so trimming is the identity on it. -/
structure RawBookingReq where
  routeIdIsMongoId : Bool
  scheduleIdIsMongoId : Bool
  travelDateIsISO : Bool
  fareIsNumeric : Bool
  travelDate : Int
  seatNumber : String
  fare : Int
deriving Repr, DecidableEq

/-- The route-level validator chain of POST /api/bookings. -/
def expressValidatorsPass (r : RawBookingReq) : Bool :=
  r.routeIdIsMongoId && r.scheduleIdIsMongoId && r.travelDateIsISO &&
    (r.seatNumber != "") && r.fareIsNumeric

/-- The Booking schema validation run by mongoose on save: the travelDate
`min` bound (a Date captured once, when the schema module was loaded), the
required non-empty seat string, and the non-negative fare. -/
def mongooseValidate (schemaLoadTime : Int) (travelDate : Int) (seat : String)
    (fare : Int) : Bool :=
  (schemaLoadTime ≤ travelDate : Bool) && (seat != "") && (0 ≤ fare : Bool)

/-- A reservation request survives both validation layers. -/
def reservationValidationAccepts (schemaLoadTime : Int) (r : RawBookingReq) : Bool :=
  expressValidatorsPass r &&
    mongooseValidate schemaLoadTime r.travelDate r.seatNumber r.fare

/-- The seat labels enumerated for a vehicle capacity by
GET /api/schedules/route/:routeId/available-seats: `Seat 1` .. `Seat capacity`. -/
def seatLabels (capacity : Nat) : List String :=
  (List.range capacity).map (fun i => "Seat " ++ toString (i + 1))

/-- Same raw request with the seat label replaced. -/
def setSeat (r : RawBookingReq) (s : String) : RawBookingReq :=
  { r with seatNumber := s }

/-! ## Forecasting service (forecasting/services/forecastService.js)

Dates are abstracted to what the service reads off them: an integer day
number (`dateNum`, used by the analytics window filter) and the values of
`moment(...).day()` and `moment(...).month()`.  `Math.random()` results are
explicit rational parameters, `Math.floor` is `Int.floor`, and `Math.round`
is floor of x + 1/2. -/

/-- One historical demand sample (a parsed CSV row or one generated mock
data point). -/
structure Sample where
  route : String
  dateNum : Int
  dow : Nat
  hour : Int
  bookings : Int
  capacity : Int
deriving Repr, DecidableEq

/-- The (month, day-of-week) data of the requested target date. -/
structure TargetDate where
  month : Nat
  dow : Nat
deriving Repr, DecidableEq

/-- JS Math.round. -/
def jsRound (x : ℚ) : Int := ⌊x + 1 / 2⌋

/-- Arithmetic mean of a list of rationals (callers only apply it to
non-empty lists, as the source guards do). -/
def meanQ (l : List ℚ) : ℚ := l.sum / l.length

/-- The `hour ? parseInt(hour) : 9` default in getPrediction: the default
applies whenever the hour argument is falsy, which for a numeric argument
includes an explicit 0. -/
def jsDefaultHour : Option Int → Int
  | none => 9
  | some h => if h = 0 then 9 else h

/-- getSeasonalFactor: holiday boost for month index 11 or 0, summer
reduction for month indexes 4..8, weekend reduction, else 0; the first
matching branch returns. -/
def getSeasonalFactor (month dow : Nat) : Int :=
  if month = 11 ∨ month = 0 then 5
  else if 4 ≤ month ∧ month ≤ 8 then -3
  else if dow = 0 ∨ dow = 6 then -5
  else 0

/-- calculateTrend: mean of the last 7 samples minus mean of the remaining
older samples, 0 when fewer than 2 samples or when either slice is empty. -/
def calculateTrend (data : List Sample) : ℚ :=
  if data.length < 2 then 0
  else
    let recent := data.drop (data.length - 7)
    let older := data.take (data.length - 7)
    if recent.length = 0 ∨ older.length = 0 then 0
    else meanQ (recent.map (fun s => (s.bookings : ℚ))) -
      meanQ (older.map (fun s => (s.bookings : ℚ)))

/-- A prediction response; the formatted datetime string is not modelled. -/
structure Prediction where
  route : String
  predicted_count : Int
  capacity : Int
  utilization_pct : Int
  confidence : ℚ
  explanation : List String
deriving Repr, DecidableEq

/-- generateExplanation: trend line when the trend is strong, the
weekend/weekday line, a high-utilization warning above 80 percent, and the
closing caveat. -/
def generateExplanation (predictedBookings capacity trend : ℚ) (d : TargetDate) :
    List String :=
  (if trend > 5 then ["Increasing ridership trend detected"]
   else if trend < -5 then ["Decreasing ridership trend detected"]
   else []) ++
  (if d.dow = 0 ∨ d.dow = 6 then ["Weekend typically shows 30% lower ridership"]
   else ["Weekday peak hours expected"]) ++
  (if predictedBookings / capacity > 4 / 5 then
    ["High utilization expected - consider additional capacity"]
   else []) ++
  ["Weather and events may affect actual ridership"]

/-- generateMockPrediction: synthetic fallback prediction; r1, r2, r3 are the
three Math.random() draws. -/
def generateMockPrediction (route : String) (r1 r2 r3 : ℚ) : Prediction :=
  let baseBookings : ℚ := 20 + r1 * 30
  let capacity : Int := 50 + ⌊r2 * 50⌋
  let utilization : Int := jsRound (baseBookings / (capacity : ℚ) * 100)
  { route := route
    predicted_count := ⌊baseBookings⌋
    capacity := capacity
    utilization_pct := min 100 utilization
    confidence := 70 + r3 * 20
    explanation :=
      [ "Based on historical patterns for this route",
        "Weekend traffic typically shows 20% higher utilization",
        "Weather conditions may affect ridership" ] }

/-- getPrediction: filter to the route, fall back to the mock when no route
data or no same-day-of-week same-hour slice exists, otherwise the
average/trend/seasonal estimate.  rN is the noise draw of the historical
path; r1, r2, r3 are the mock path's draws. -/
def getPrediction (hist : List Sample) (route : String) (d : TargetDate)
    (hour : Option Int) (rN r1 r2 r3 : ℚ) : Prediction :=
  let targetHour := jsDefaultHour hour
  let routeData := hist.filter (fun s => s.route == route)
  if routeData.isEmpty then generateMockPrediction route r1 r2 r3
  else
    let sameHourData := routeData.filter
      (fun s => s.dow == d.dow && s.hour == targetHour)
    if sameHourData.isEmpty then generateMockPrediction route r1 r2 r3
    else
      let avgBookings := meanQ (sameHourData.map (fun s => (s.bookings : ℚ)))
      let avgCapacity := meanQ (sameHourData.map (fun s => (s.capacity : ℚ)))
      let trend := calculateTrend sameHourData
      let seasonalFactor := getSeasonalFactor d.month d.dow
      let predictedBookings : Int :=
        max 0 ⌊avgBookings + trend + (rN - 1 / 2) * 10 + (seasonalFactor : ℚ)⌋
      let utilization := jsRound ((predictedBookings : ℚ) / avgCapacity * 100)
      let confidence : ℚ := max 60 (100 - |trend| * 2)
      { route := route
        predicted_count := predictedBookings
        capacity := ⌊avgCapacity⌋
        utilization_pct := min 100 utilization
        confidence := min 95 confidence
        explanation :=
          generateExplanation (predictedBookings : ℚ) avgCapacity trend d }

/-- The local mock prediction built by the backend proxy route
GET /api/forecast/predict when the forecast service is unreachable
(backend/routes/forecast.js fallback); r1, r2, r3 are its Math.random()
draws. -/
def part004MockPrediction (route : String) (r1 r2 r3 : ℚ) : Prediction :=
  { route := route
    predicted_count := ⌊r1 * 50⌋ + 10
    capacity := 60
    utilization_pct := ⌊r2 * 80⌋ + 20
    confidence := ((⌊r3 * 30⌋ + 70 : Int) : ℚ)
    explanation :=
      [ "Based on historical patterns for this route",
        "Weekend traffic typically shows 20% higher utilization",
        "Weather conditions may affect ridership" ] }

/-- One heatmap / trend data point. -/
structure TrendPoint where
  key : Int
  utilization : Int
  bookings : Int
deriving Repr, DecidableEq

/-- One heatmap row (a named day with 24 hour cells). -/
structure HeatmapRow where
  day : String
  hours : List TrendPoint
deriving Repr, DecidableEq

/-- The utilization summary block of an analytics response. -/
structure UtilSummary where
  average : Int
  peak : Int
  low : Int
deriving Repr, DecidableEq

/-- An analytics response; the period bounds are day numbers. -/
structure Analytics where
  routeId : String
  periodStart : Int
  periodEnd : Int
  utilization : UtilSummary
  heatmap : List HeatmapRow
  weekly : List TrendPoint
  hourly : List TrendPoint
  recommendations : List String
deriving Repr, DecidableEq

/-- JS Array.prototype.map over a callback that may throw: the first thrown
exception propagates. -/
def mapThrow {α β : Type} (f : α → Except String β) : List α → Except String (List β)
  | [] => Except.ok []
  | a :: rest =>
    match f a with
    | Except.error e => Except.error e
    | Except.ok b =>
      match mapThrow f rest with
      | Except.error e => Except.error e
      | Except.ok bs => Except.ok (b :: bs)

/-- The day names used by generateHeatmapData. -/
def heatmapDayNames : List String :=
  ["monday", "tuesday", "wednesday", "thursday", "friday", "saturday", "sunday"]

/-- generateHeatmapData: 7 named rows of 24 cells; each cell averages the
samples sharing its hour (the day is not consulted by the cell filter in the
source), with 0 bookings and default capacity 50 for empty cells. -/
def generateHeatmapData (data : List Sample) : List HeatmapRow :=
  heatmapDayNames.map (fun day =>
    { day := day
      hours := (List.range 24).map (fun (hour : Nat) =>
        let hourData := data.filter (fun s => s.hour == (hour : Int))
        let avgBookings : ℚ :=
          if hourData.length > 0 then
            meanQ (hourData.map (fun s => (s.bookings : ℚ)))
          else 0
        let avgCapacity : ℚ :=
          if hourData.length > 0 then
            meanQ (hourData.map (fun s => (s.capacity : ℚ)))
          else 50
        { key := (hour : Int)
          utilization := jsRound (avgBookings / avgCapacity * 100)
          bookings := jsRound avgBookings }) })

/-- generateWeeklyTrend: 7 points indexed 0 (Sunday) .. 6 (Saturday), mean
bookings and capacity of the samples whose date falls on that day of week. -/
def generateWeeklyTrend (data : List Sample) : List TrendPoint :=
  (List.range 7).map (fun (day : Nat) =>
    let dayData := data.filter (fun s => s.dow == day)
    let avgBookings : ℚ :=
      if dayData.length > 0 then meanQ (dayData.map (fun s => (s.bookings : ℚ)))
      else 0
    let avgCapacity : ℚ :=
      if dayData.length > 0 then meanQ (dayData.map (fun s => (s.capacity : ℚ)))
      else 50
    { key := (day : Int)
      utilization := jsRound (avgBookings / avgCapacity * 100)
      bookings := jsRound avgBookings })

/-- generateHourlyTrend as written in the source: for an hour with matching
samples the capacity average reads `dayData.length`, but no `dayData` is in
scope in this method, so evaluating that cell throws a ReferenceError; an
hour with no samples takes the 0 / default-50 branch and does not touch it. -/
def generateHourlyTrendRes (data : List Sample) : Except String (List TrendPoint) :=
  mapThrow (fun (hour : Nat) =>
    let hourData := data.filter (fun s => s.hour == (hour : Int))
    if hourData.length > 0 then
      Except.error "ReferenceError: dayData is not defined"
    else
      Except.ok { key := (hour : Int)
                  utilization := jsRound ((0 : ℚ) / 50 * 100)
                  bookings := jsRound 0 })
    (List.range 24)

/-- getPeakHourRanges: merge sorted peak hours into contiguous ranges. -/
def peakRangesAux (start finish : Int) : List TrendPoint → List String
  | [] => [toString start ++ ":00-" ++ toString (finish + 1) ++ ":00"]
  | p :: rest =>
    if p.key = finish + 1 then peakRangesAux start p.key rest
    else (toString start ++ ":00-" ++ toString (finish + 1) ++ ":00") ::
      peakRangesAux p.key p.key rest

/-- getPeakHourRanges entry point (the source only calls it on a non-empty
list). -/
def getPeakHourRanges : List TrendPoint → List String
  | [] => []
  | p :: rest => peakRangesAux p.key p.key rest

/-- generateRecommendations: utilization flags, peak-hour ranges read from the
hourly trend (so it rethrows the hourly trend's ReferenceError), and the
closing monitoring line. -/
def generateRecommendationsRes (avgUtilization : ℚ) (data : List Sample) :
    Except String (List String) :=
  match generateHourlyTrendRes data with
  | Except.error e => Except.error e
  | Except.ok hourlyData =>
    let peakHours := hourlyData.filter (fun h => h.utilization > 70)
    Except.ok (
      (if avgUtilization > 80 then
        ["High utilization detected - consider increasing capacity"]
       else []) ++
      (if avgUtilization < 30 then
        ["Low utilization - consider optimizing schedule"]
       else []) ++
      (if peakHours.length > 0 then
        ["Peak utilization during: " ++
          String.intercalate ", " (getPeakHourRanges peakHours)]
       else []) ++
      ["Monitor weather and events for demand fluctuations"])

/-- The Math.random() draws consumed by the mock analytics generators. -/
structure RandStream where
  heatU : Nat → Nat → ℚ
  heatB : Nat → Nat → ℚ
  weekU : Nat → ℚ
  weekB : Nat → ℚ
  hourU : Nat → ℚ
  hourB : Nat → ℚ

/-- generateMockHeatmap. -/
def generateMockHeatmap (ρ : RandStream) : List HeatmapRow :=
  (List.range 7).map (fun di =>
    { day := heatmapDayNames.getD di ""
      hours := (List.range 24).map (fun (hour : Nat) =>
        { key := (hour : Int)
          utilization := ⌊ρ.heatU di hour * 100⌋
          bookings := ⌊ρ.heatB di hour * 50⌋ + 10 }) })

/-- generateMockWeeklyTrend. -/
def generateMockWeeklyTrend (ρ : RandStream) : List TrendPoint :=
  (List.range 7).map (fun (i : Nat) =>
    { key := (i : Int)
      utilization := ⌊ρ.weekU i * 60⌋ + 20
      bookings := ⌊ρ.weekB i * 100⌋ + 20 })

/-- generateMockHourlyTrend. -/
def generateMockHourlyTrend (ρ : RandStream) : List TrendPoint :=
  (List.range 24).map (fun (i : Nat) =>
    { key := (i : Int)
      utilization := ⌊ρ.hourU i * 80⌋ + 10
      bookings := ⌊ρ.hourB i * 30⌋ + 5 })

/-- generateMockAnalytics: fixed utilization summary, random heatmap and
trends, fixed recommendations; the period is always the last 30 days through
now and the routeId is the fixed string mock-route. -/
def generateMockAnalytics (now : Int) (ρ : RandStream) : Analytics :=
  { routeId := "mock-route"
    periodStart := now - 30
    periodEnd := now
    utilization := { average := 65, peak := 85, low := 35 }
    heatmap := generateMockHeatmap ρ
    weekly := generateMockWeeklyTrend ρ
    hourly := generateMockHourlyTrend ρ
    recommendations :=
      [ "Consider adding more vehicles during peak hours (7-9 AM, 5-7 PM)",
        "Route shows consistent high utilization on weekdays",
        "Weekend ridership is 40% lower than weekdays" ] }

/-- The body of the try block of getAnalytics over the window-filtered
samples: aggregate utilization, heatmap, weekly and hourly trends,
recommendations.  Propagates the hourly trend's ReferenceError. -/
def getAnalyticsCore (routeId : String) (startD endD : Int)
    (routeData : List Sample) : Except String Analytics :=
  let totalBookings : ℚ := ((routeData.map (fun s => s.bookings)).sum : ℚ)
  let avgCapacity := meanQ (routeData.map (fun s => (s.capacity : ℚ)))
  let avgUtilization := totalBookings / ((routeData.length : ℚ) * avgCapacity) * 100
  match generateHourlyTrendRes routeData with
  | Except.error e => Except.error e
  | Except.ok hourly =>
    match generateRecommendationsRes avgUtilization routeData with
    | Except.error e => Except.error e
    | Except.ok recs =>
      Except.ok
        { routeId := routeId
          periodStart := startD
          periodEnd := endD
          utilization :=
            { average := jsRound avgUtilization
              peak := jsRound (avgUtilization * (13 / 10))
              low := jsRound (avgUtilization * (7 / 10)) }
          heatmap := generateHeatmapData routeData
          weekly := generateWeeklyTrend routeData
          hourly := hourly
          recommendations := recs }

/-- getAnalytics: resolve the window defaults (last 30 days through now),
filter the historical samples to the inclusive window (the route id is not
part of the filter in the source), return the mock analytics when no sample
matches, and also when the try block throws (the catch branch). -/
def getAnalytics (hist : List Sample) (routeId : String)
    (startDate endDate : Option Int) (now : Int) (ρ : RandStream) : Analytics :=
  let startD := startDate.getD (now - 30)
  let endD := endDate.getD now
  let routeData := hist.filter (fun s => startD ≤ s.dateNum && s.dateNum ≤ endD)
  if routeData.isEmpty then generateMockAnalytics now ρ
  else
    match getAnalyticsCore routeId startD endD routeData with
    | Except.error _ => generateMockAnalytics now ρ
    | Except.ok a => a

/-- The utilization average exactly as the claim states it: total bookings
over (sample count times mean capacity), as a percentage, rounded. -/
def claimUtilizationAverage (data : List Sample) : Int :=
  jsRound (((data.map (fun s => s.bookings)).sum : ℚ) /
    ((data.length : ℚ) * meanQ (data.map (fun s => (s.capacity : ℚ)))) * 100)

/-- The seasonal adjustment exactly as the claim states it: +5 for month
indexes 10 or 11, -3 for 4..8, -5 for weekend days, else 0, first match
winning. -/
def claimSeasonalFactor (month dow : Nat) : Int :=
  if month = 10 ∨ month = 11 then 5
  else if 4 ≤ month ∧ month ≤ 8 then -3
  else if dow = 0 ∨ dow = 6 then -5
  else 0

/-- The seasonal adjustment as amended: +5 for month indexes 11 or 0
(December or January), -3 for 4..8 (May through September), -5 for Saturday
or Sunday, else 0, first match winning. -/
def amendedSeasonalFactor (month dow : Nat) : Int :=
  if month = 11 ∨ month = 0 then 5
  else if 4 ≤ month ∧ month ≤ 8 then -3
  else if dow = 0 ∨ dow = 6 then -5
  else 0

/-! ## Concrete fixtures used by counterexamples and witnesses -/

/-- A concrete pending booking: user 1, seat `Seat 1` on schedule 11 for
travel date 5. -/
def demoBase : Booking :=
  mkBooking 21
    { userId := 1
      routeId := 3
      scheduleId := 11
      travelDate := 5
      seatNumber := "Seat 1"
      fare := 20 }

/-- The same booking in status no_show. -/
def demoNoShow : Booking := { demoBase with status := BStatus.no_show }

/-- The same booking in status cancelled. -/
def demoCancelled : Booking := { demoBase with status := BStatus.cancelled }

/-- A catalog holding route 3 and schedule 11 on route 3 with vehicle 21. -/
def demoCatalog : Catalog :=
  { routes := [3]
    schedules := [{ id := 11, route := 3, vehicle := 21 }] }

/-- User 1 requests seat `Seat 1` on schedule 11 for date 5. -/
def demoReq1 : ReserveReq :=
  { userId := 1
    routeId := 3
    scheduleId := 11
    travelDate := 5
    seatNumber := "Seat 1"
    fare := 20 }

/-- User 2 requests the same seat on the same schedule and date. -/
def demoReq2 : ReserveReq := { demoReq1 with userId := 2 }

/-! ## C2 — lifecycle monotonicity -/

/-- C2 counterexample: a booking in terminal status no_show is cancellable —
the cancel method only rejects completed and cancelled, so on a no_show
booking the attempt succeeds and moves the booking to cancelled, refuting the
claim that every transition attempt on a terminal booking fails. -/
theorem terminal_no_show_cancel_cx :
    demoNoShow.status.isTerminal = true ∧
    isErr (demoNoShow.cancel (some "late") 7 100) = false ∧
    okVal (demoNoShow.cancel (some "late") 7 100) =
      some { demoNoShow with
               status := BStatus.cancelled
               cancellationReason := some "late"
               cancelledAt := some 100
               cancelledBy := some 7 } :=
  ⟨rfl, rfl, rfl⟩

/-- C2 (amended): on a booking in a terminal state, confirm, check-in and
complete always fail with an illegal-state error (and hence produce no
updated document), while cancel fails exactly when the state is cancelled or
completed — a no_show booking can still be cancelled. -/
theorem terminal_transition_spec (b : Booking) (reason : Option String)
    (u : Nat) (now : Int) (h : b.status.isTerminal = true) :
    isErr b.confirm = true ∧ isErr (b.checkIn now) = true ∧
    isErr (b.complete now) = true ∧
    (b.status ≠ BStatus.no_show → isErr (b.cancel reason u now) = true) ∧
    (b.status = BStatus.no_show → isErr (b.cancel reason u now) = false) := by
  cases hs : b.status
  case pending => simp [BStatus.isTerminal, hs] at h
  case confirmed => simp [BStatus.isTerminal, hs] at h
  all_goals
    refine ⟨?_, ?_, ?_, ?_, ?_⟩ <;>
      first
        | (intro h2; simp_all [Booking.cancel, isErr])
        | simp_all [Booking.confirm, Booking.checkIn, Booking.complete,
            Booking.cancel, isErr]

/-- C2 witness: the amended statement evaluated on a concrete cancelled
booking. -/
theorem terminal_transition_spec_witness :
    isErr demoCancelled.confirm = true ∧
    isErr (demoCancelled.checkIn 100) = true ∧
    isErr (demoCancelled.complete 100) = true ∧
    (demoCancelled.status ≠ BStatus.no_show →
      isErr (demoCancelled.cancel (some "x") 7 100) = true) ∧
    (demoCancelled.status = BStatus.no_show →
      isErr (demoCancelled.cancel (some "x") 7 100) = false) :=
  terminal_transition_spec demoCancelled (some "x") 7 100 (by decide)

/-! ## C3 — confirm requires pending -/

/-- C3: confirm on a confirmed, cancelled or completed booking fails with an
illegal-state error; confirm on a pending booking succeeds, the produced
document is confirmed with paymentStatus paid, and confirming that document
again fails — so confirmation succeeds exactly once. -/
theorem confirm_requires_pending (b : Booking) :
    (b.status = BStatus.confirmed ∨ b.status = BStatus.cancelled ∨
        b.status = BStatus.completed → isErr b.confirm = true) ∧
    (b.status = BStatus.pending →
      isErr b.confirm = false ∧
      ∀ b2, okVal b.confirm = some b2 →
        b2.status = BStatus.confirmed ∧ b2.paymentStatus = PayStatus.paid ∧
          isErr b2.confirm = true) := by
  constructor
  · intro h
    rcases h with h | h | h <;> simp [Booking.confirm, h, isErr]
  · intro h
    refine ⟨by simp [Booking.confirm, h, isErr], ?_⟩
    intro b2 hb2
    simp [Booking.confirm, h, okVal] at hb2
    subst hb2
    simp [Booking.confirm, isErr]

/-- C3 witness: on the concrete pending booking, confirm succeeds and yields
a paid confirmed booking whose second confirmation fails; on the concrete
cancelled booking, confirm fails. -/
theorem confirm_requires_pending_witness :
    isErr demoBase.confirm = false ∧
    (∀ b2, okVal demoBase.confirm = some b2 →
      b2.status = BStatus.confirmed ∧ b2.paymentStatus = PayStatus.paid ∧
        isErr b2.confirm = true) ∧
    isErr demoCancelled.confirm = true :=
  ⟨((confirm_requires_pending demoBase).2 rfl).1,
   ((confirm_requires_pending demoBase).2 rfl).2,
   (confirm_requires_pending demoCancelled).1 (Or.inr (Or.inl rfl))⟩

/-! ## C4 — ownership rule -/

/-- C4 counterexample: an administrator (actor 2, role admin) who does not
own booking demoBase (owned by user 1) is denied with 403 forbidden by all
three lifecycle endpoints, refuting the claim that administrators are
permitted. -/
theorem admin_lifecycle_denied_cx :
    cancelEndpoint (some demoBase) 2 Role.admin (some "x") 100 =
      LifecycleOutcome.forbidden ∧
    confirmEndpoint (some demoBase) 2 Role.admin = LifecycleOutcome.forbidden ∧
    checkInEndpoint (some demoBase) 2 Role.admin 100 =
      LifecycleOutcome.forbidden :=
  ⟨rfl, rfl, rfl⟩

/-- C4 (amended): the lifecycle endpoints admit only the booking's owning
user: any other actor — the role, including admin, is never consulted — is
denied with forbidden, which is distinct from the not-found outcome of a
missing booking; for the owner the endpoints never answer forbidden or
not-found. -/
theorem lifecycle_owner_only_spec (b : Booking) (aid : Nat) (role : Role)
    (reason : Option String) (now : Int) :
    (aid ≠ b.user →
      cancelEndpoint (some b) aid role reason now = LifecycleOutcome.forbidden ∧
      confirmEndpoint (some b) aid role = LifecycleOutcome.forbidden ∧
      checkInEndpoint (some b) aid role now = LifecycleOutcome.forbidden) ∧
    (aid = b.user →
      cancelEndpoint (some b) aid role reason now ≠ LifecycleOutcome.forbidden ∧
      cancelEndpoint (some b) aid role reason now ≠ LifecycleOutcome.notFound ∧
      confirmEndpoint (some b) aid role ≠ LifecycleOutcome.forbidden ∧
      confirmEndpoint (some b) aid role ≠ LifecycleOutcome.notFound ∧
      checkInEndpoint (some b) aid role now ≠ LifecycleOutcome.forbidden ∧
      checkInEndpoint (some b) aid role now ≠ LifecycleOutcome.notFound) ∧
    cancelEndpoint none aid role reason now = LifecycleOutcome.notFound := by
  refine ⟨?_, ?_, rfl⟩
  · intro h
    have hb : b.user ≠ aid := fun e => h e.symm
    exact ⟨by simp [cancelEndpoint, hb], by simp [confirmEndpoint, hb],
      by simp [checkInEndpoint, hb]⟩
  · intro h
    subst h
    refine ⟨?_, ?_, ?_, ?_, ?_, ?_⟩ <;>
      simp only [cancelEndpoint, confirmEndpoint, checkInEndpoint,
        ne_eq, not_true_eq_false, if_false, ite_not] <;>
      first
      | (cases hc : b.cancel reason b.user now <;> simp)
      | (cases hc : b.confirm <;> simp)
      | (cases hc : b.checkIn now <;> simp)

/-- C4 witness: the amended statement evaluated concretely — a non-owning
admin is denied, the owner is not denied. -/
theorem lifecycle_owner_only_spec_witness :
    cancelEndpoint (some demoBase) 2 Role.admin (some "x") 100 =
      LifecycleOutcome.forbidden ∧
    cancelEndpoint (some demoBase) 1 Role.user (some "x") 100 ≠
      LifecycleOutcome.forbidden :=
  ⟨((lifecycle_owner_only_spec demoBase 2 Role.admin (some "x") 100).1
      (by decide)).1,
   ((lifecycle_owner_only_spec demoBase 1 Role.user (some "x") 100).2.1
      rfl).1⟩

/-! ## C1 — seat uniqueness -/

/-- C1 counterexample: both concurrent requests for seat `Seat 1` pass the
`findOne` pre-check against the same initial (empty) store, both inserts run,
and the store ends with two active bookings for the same
(schedule, travelDate, seatLabel) — and the Booking schema declares no unique
index at all, so no storage-layer constraint prevents this; this refutes both
the at-most-one invariant under concurrency and the claimed storage-layer
enforcement. -/
theorem seat_uniqueness_race_cx :
    (reservePhaseRead demoCatalog [] demoReq1).isSome = true ∧
    (reservePhaseRead demoCatalog [] demoReq2).isSome = true ∧
    countActive (raceDoubleReserve demoCatalog [] demoReq1 demoReq2)
      11 5 "Seat 1" = 2 ∧
    bookingSchemaIndexes.all (fun i => !i.unique) = true := by
  refine ⟨rfl, rfl, rfl, rfl⟩

/-- C1 (amended): the handler enforces seat uniqueness only by the `findOne`
pre-check: run sequentially, a request for a seat already held by a pending or
confirmed booking fails with the 409 conflict outcome SEAT_OCCUPIED and
leaves the store unchanged, and a request for a free seat creates exactly one
new pending booking for that seat; but none of the schema's indexes is
unique, so the uniqueness of (schedule, travelDate, seatLabel) is not
enforced at the storage layer and the check-then-act interleaving of the
counterexample can produce two active bookings for one seat. -/
theorem seat_conflict_precheck_spec (cat : Catalog) (store : List Booking)
    (req : ReserveReq) (s : Sched)
    (hr : cat.routes.contains req.routeId = true)
    (hs : cat.schedules.find? (fun x => x.id == req.scheduleId) = some s)
    (hsr : s.route = req.routeId) :
    (seatTaken store req.scheduleId req.travelDate req.seatNumber = true →
      createBookingHandler cat store req = (CreateResult.seatOccupied, store)) ∧
    (seatTaken store req.scheduleId req.travelDate req.seatNumber = false →
      createBookingHandler cat store req =
        (CreateResult.created (mkBooking s.vehicle req),
          mkBooking s.vehicle req :: store) ∧
      (mkBooking s.vehicle req).status = BStatus.pending ∧
      countActive (mkBooking s.vehicle req :: store)
          req.scheduleId req.travelDate req.seatNumber =
        countActive store req.scheduleId req.travelDate req.seatNumber + 1) ∧
    (∀ i ∈ bookingSchemaIndexes, i.unique = false) := by
  have hr2 : req.routeId ∈ cat.routes := by simpa using hr
  refine ⟨?_, ?_, by decide⟩
  · intro ht
    simp [createBookingHandler, hr2, hs, hsr, ht]
  · intro ht
    refine ⟨by simp [createBookingHandler, hr2, hs, hsr, ht], rfl, ?_⟩
    have hact : activeFor req.scheduleId req.travelDate req.seatNumber
        (mkBooking s.vehicle req) = true := by
      simp [activeFor, mkBooking]
      exact Or.inl rfl
    simp [countActive, List.filter, hact, Nat.add_comm]

/-- C1 witness: the amended statement evaluated concretely — with demoBase
already holding the seat, the second request gets SEAT_OCCUPIED and the store
is unchanged. -/
theorem seat_conflict_precheck_spec_witness :
    createBookingHandler demoCatalog [demoBase] demoReq2 =
      (CreateResult.seatOccupied, [demoBase]) :=
  (seat_conflict_precheck_spec demoCatalog [demoBase] demoReq2
      { id := 11, route := 3, vehicle := 21 }
      (by decide) (by decide) rfl).1 (by decide)

/-! ## C5 — reservation input constraints -/

/-- A raw request with every format validator passing, a far-future travel
date, and a seat label far outside any plausible capacity. -/
def demoBadSeatReq : RawBookingReq :=
  { routeIdIsMongoId := true
    scheduleIdIsMongoId := true
    travelDateIsISO := true
    fareIsNumeric := true
    travelDate := 1000
    seatNumber := "Seat 9999"
    fare := 20 }

/-- The same request with seat `Seat 1` and a travel date that lies after the
schema-load time 100 but before the request time 200. -/
def demoStaleDateReq : RawBookingReq :=
  { demoBadSeatReq with travelDate := 150, seatNumber := "Seat 1" }

/-- C5 counterexample: with schema-load time 100, a request whose seat label
`Seat 9999` is not among the labels `Seat 1`..`Seat 50` enumerated for a
capacity-50 vehicle passes the whole validation pipeline, and a request whose
travel date 150 is in the past relative to the request time 200 also passes
(the schema's min bound was captured at load time, not per request) — both
refute the claimed rejections. -/
theorem reservation_validation_cx :
    reservationValidationAccepts 100 demoBadSeatReq = true ∧
    (seatLabels 50).contains "Seat 9999" = false ∧
    reservationValidationAccepts 100 demoStaleDateReq = true ∧
    demoStaleDateReq.travelDate < 200 := by
  refine ⟨by decide, by decide, by decide, by decide⟩

/-- C5 (amended): the validation pipeline rejects a travel date earlier than
the schema-load time (not one merely earlier than the request time), never
compares the seat label against the vehicle capacity — acceptance is
unchanged under swapping any two non-empty seat labels, in or out of the
enumerated `Seat 1`..`Seat capacity` range — and accepts any request whose
format flags pass with a non-negative fare, a non-empty trimmed seat label
and a travel date not earlier than the schema-load time. -/
theorem reservation_validation_spec (t : Int) (r : RawBookingReq)
    (s1 s2 : String) :
    (r.travelDate < t → reservationValidationAccepts t r = false) ∧
    (s1 ≠ "" → s2 ≠ "" →
      reservationValidationAccepts t (setSeat r s1) =
        reservationValidationAccepts t (setSeat r s2)) ∧
    (r.routeIdIsMongoId = true → r.scheduleIdIsMongoId = true →
      r.travelDateIsISO = true → r.fareIsNumeric = true →
      t ≤ r.travelDate → r.seatNumber ≠ "" → 0 ≤ r.fare →
      reservationValidationAccepts t r = true) := by
  refine ⟨?_, ?_, ?_⟩
  · intro h
    have : ¬ (t ≤ r.travelDate) := not_le.mpr h
    simp [reservationValidationAccepts, mongooseValidate, this]
  · intro h1 h2
    have e1 : (s1 != "") = true := by simp [bne_iff_ne, h1]
    have e2 : (s2 != "") = true := by simp [bne_iff_ne, h2]
    simp [reservationValidationAccepts, mongooseValidate,
      expressValidatorsPass, setSeat, e1, e2]
  · intro ha hb hc hd he hf hg
    simp [reservationValidationAccepts, mongooseValidate,
      expressValidatorsPass, bne_iff_ne, ha, hb, hc, hd, he, hf, hg]

/-- C5 witness: the amended statement evaluated concretely. -/
theorem reservation_validation_spec_witness :
    reservationValidationAccepts 100 demoBadSeatReq = true :=
  (reservation_validation_spec 100 demoBadSeatReq "a" "b").2.2
    rfl rfl rfl rfl (by decide) (by decide) (by decide)

/-! ## C6 — seasonal adjustment -/

/-- C6 counterexample: on a November weekday (month index 10, Tuesday) the
code's seasonal factor is 0 while the claim demands +5, and on a January
weekday (month index 0) the code gives +5 while the claim demands 0 — the
holiday branch tests month 11 or 0 (December/January), not 10 or 11. -/
theorem seasonal_factor_cx :
    getSeasonalFactor 10 2 = 0 ∧ claimSeasonalFactor 10 2 = 5 ∧
    getSeasonalFactor 0 2 = 5 ∧ claimSeasonalFactor 0 2 = 0 := by
  refine ⟨rfl, rfl, rfl, rfl⟩

/-- C6 (amended): the seasonal adjustment is +5 when the month index is 11 or
0 (December/January), else −3 when the month index is 4..8 (May–September),
else −5 on Saturday/Sunday, else 0 — with exactly one rule applying because
each branch returns: a December weekend gets +5, a summer Sunday −3. -/
theorem seasonal_factor_spec :
    (∀ month dow : Nat, getSeasonalFactor month dow = amendedSeasonalFactor month dow) ∧
    getSeasonalFactor 11 6 = 5 ∧ getSeasonalFactor 5 0 = -3 ∧
    getSeasonalFactor 1 6 = -5 ∧ getSeasonalFactor 1 2 = 0 :=
  ⟨fun _ _ => rfl, rfl, rfl, rfl, rfl⟩

/-! ## C10 — hour-zero coercion -/

/-- C10: because getPrediction applies the default whenever the hour argument
is falsy, an explicit hour 0 behaves exactly like an omitted hour — the whole
prediction coincides for every dataset, route, date and noise draw, and the
target hour used is 9 (while a non-zero hour such as 7 is kept). -/
theorem hour_zero_default (hist : List Sample) (route : String) (d : TargetDate)
    (rN r1 r2 r3 : ℚ) :
    getPrediction hist route d (some 0) rN r1 r2 r3 =
      getPrediction hist route d none rN r1 r2 r3 ∧
    jsDefaultHour (some 0) = 9 ∧ jsDefaultHour none = 9 ∧
    jsDefaultHour (some 7) = 7 :=
  ⟨rfl, rfl, rfl, rfl⟩

/-! ## C7 — prediction output bounds -/

/-- C7 counterexample: on the backend proxy route's local mock fallback the
confidence is floor(random·30)+70; at the admissible draw 29/30 it evaluates
to 99, violating the claimed upper bound 95. -/
theorem prediction_confidence_cx :
    (part004MockPrediction "Central Station to Airport Express"
        0 0 (29 / 30)).confidence = 99 ∧
    ¬ ((part004MockPrediction "Central Station to Airport Express"
        0 0 (29 / 30)).confidence ≤ 95) ∧
    (0 : ℚ) ≤ 29 / 30 ∧ (29 : ℚ) / 30 < 1 := by
  have h29 : ((29 : ℚ) / 30) * 30 = 29 := by norm_num
  refine ⟨?_, ?_, by norm_num, by norm_num⟩ <;>
    simp [part004MockPrediction, h29] <;> norm_num

/-- Math.round of a non-negative number is non-negative. -/
theorem jsRound_nonneg {x : ℚ} (h : 0 ≤ x) : 0 ≤ jsRound x := by
  have hx : (0 : ℚ) ≤ x + 1 / 2 := by linarith
  exact Int.floor_nonneg.mpr hx

/-- A list of rationals all at least 1 sums to at least its length. -/
theorem length_le_sum_of_one_le :
    ∀ {l : List ℚ}, (∀ x ∈ l, 1 ≤ x) → (l.length : ℚ) ≤ l.sum := by
  intro l
  induction l with
  | nil => intro _; simp
  | cons a t ih =>
    intro h
    have ha := h a (List.mem_cons_self a t)
    have ht := ih (fun x hx => h x (List.mem_cons_of_mem a hx))
    simp only [List.sum_cons, List.length_cons]
    push_cast
    linarith

/-- The mean of a non-empty list of rationals all at least 1 is positive. -/
theorem meanQ_pos {l : List ℚ} (hne : l ≠ []) (h1 : ∀ x ∈ l, 1 ≤ x) :
    0 < meanQ l := by
  have hlen : 0 < (l.length : ℚ) := by
    have := List.length_pos.mpr hne
    exact_mod_cast this
  have hsum : (l.length : ℚ) ≤ l.sum := length_le_sum_of_one_le h1
  exact div_pos (lt_of_lt_of_le hlen hsum) hlen

/-- Bounds of the forecast service's own mock prediction: count at least 20,
utilization within [0,100], confidence within [70,90) and hence [60,95]. -/
theorem generateMockPrediction_bounds (route : String) {r1 r2 r3 : ℚ}
    (h10 : 0 ≤ r1) (h20 : 0 ≤ r2) (h30 : 0 ≤ r3) (h31 : r3 < 1) :
    0 ≤ (generateMockPrediction route r1 r2 r3).predicted_count ∧
    0 ≤ (generateMockPrediction route r1 r2 r3).utilization_pct ∧
    (generateMockPrediction route r1 r2 r3).utilization_pct ≤ 100 ∧
    60 ≤ (generateMockPrediction route r1 r2 r3).confidence ∧
    (generateMockPrediction route r1 r2 r3).confidence ≤ 95 := by
  have hbase : (0 : ℚ) ≤ 20 + r1 * 30 := by nlinarith
  have hfl : (0 : Int) ≤ ⌊r2 * 50⌋ := Int.floor_nonneg.mpr (by nlinarith)
  have hcapQ : (0 : ℚ) < ((50 + ⌊r2 * 50⌋ : Int) : ℚ) := by
    have : (0 : Int) < 50 + ⌊r2 * 50⌋ := by omega
    exact_mod_cast this
  refine ⟨?_, ?_, ?_, ?_, ?_⟩
  · exact Int.floor_nonneg.mpr hbase
  · refine le_min (by norm_num) ?_
    exact jsRound_nonneg (mul_nonneg (div_nonneg hbase hcapQ.le) (by norm_num))
  · exact min_le_left _ _
  · show (60 : ℚ) ≤ 70 + r3 * 20
    nlinarith
  · show (70 : ℚ) + r3 * 20 ≤ 95
    nlinarith

/-- Bounds of the backend proxy route's local mock fallback: count within
[10,59], utilization within [20,99] (hence [0,100]), confidence within
[70,99] — the confidence can exceed 95. -/
theorem part004MockPrediction_bounds (route : String) {r1 r2 r3 : ℚ}
    (h10 : 0 ≤ r1) (h20 : 0 ≤ r2) (h21 : r2 < 1) (h30 : 0 ≤ r3) (h31 : r3 < 1) :
    0 ≤ (part004MockPrediction route r1 r2 r3).predicted_count ∧
    0 ≤ (part004MockPrediction route r1 r2 r3).utilization_pct ∧
    (part004MockPrediction route r1 r2 r3).utilization_pct ≤ 100 ∧
    70 ≤ (part004MockPrediction route r1 r2 r3).confidence ∧
    (part004MockPrediction route r1 r2 r3).confidence ≤ 99 := by
  have hf1 : (0 : Int) ≤ ⌊r1 * 50⌋ := Int.floor_nonneg.mpr (by nlinarith)
  have hf2 : (0 : Int) ≤ ⌊r2 * 80⌋ := Int.floor_nonneg.mpr (by nlinarith)
  have hf2b : ⌊r2 * 80⌋ < 80 := Int.floor_lt.mpr (by push_cast; nlinarith)
  have hf3 : (0 : Int) ≤ ⌊r3 * 30⌋ := Int.floor_nonneg.mpr (by nlinarith)
  have hf3b : ⌊r3 * 30⌋ < 30 := Int.floor_lt.mpr (by push_cast; nlinarith)
  refine ⟨?_, ?_, ?_, ?_, ?_⟩
  · show (0 : Int) ≤ ⌊r1 * 50⌋ + 10
    omega
  · show (0 : Int) ≤ ⌊r2 * 80⌋ + 20
    omega
  · show ⌊r2 * 80⌋ + 20 ≤ (100 : Int)
    omega
  · show (70 : ℚ) ≤ ((⌊r3 * 30⌋ + 70 : Int) : ℚ)
    exact_mod_cast (by omega : (70 : Int) ≤ ⌊r3 * 30⌋ + 70)
  · show ((⌊r3 * 30⌋ + 70 : Int) : ℚ) ≤ 99
    exact_mod_cast (by omega : ⌊r3 * 30⌋ + 70 ≤ (99 : Int))

/-- C7 (amended): for every dataset whose sample capacities are at least 1
and all noise draws in [0,1), the forecast service's prediction — on the
historical path and on its own mock fallback — satisfies predicted_count ≥ 0,
0 ≤ utilization_pct ≤ 100 and 60 ≤ confidence ≤ 95; the backend proxy
route's local mock fallback satisfies the count and utilization bounds but
only 70 ≤ confidence ≤ 99, so its confidence may exceed 95. -/
theorem prediction_bounds_spec (hist : List Sample) (route : String)
    (d : TargetDate) (hour : Option Int) (rN r1 r2 r3 : ℚ)
    (hcap : ∀ s ∈ hist, 1 ≤ s.capacity)
    (h10 : 0 ≤ r1) (h20 : 0 ≤ r2) (h21 : r2 < 1) (h30 : 0 ≤ r3) (h31 : r3 < 1) :
    (0 ≤ (getPrediction hist route d hour rN r1 r2 r3).predicted_count ∧
     0 ≤ (getPrediction hist route d hour rN r1 r2 r3).utilization_pct ∧
     (getPrediction hist route d hour rN r1 r2 r3).utilization_pct ≤ 100 ∧
     60 ≤ (getPrediction hist route d hour rN r1 r2 r3).confidence ∧
     (getPrediction hist route d hour rN r1 r2 r3).confidence ≤ 95) ∧
    (0 ≤ (part004MockPrediction route r1 r2 r3).predicted_count ∧
     0 ≤ (part004MockPrediction route r1 r2 r3).utilization_pct ∧
     (part004MockPrediction route r1 r2 r3).utilization_pct ≤ 100 ∧
     70 ≤ (part004MockPrediction route r1 r2 r3).confidence ∧
     (part004MockPrediction route r1 r2 r3).confidence ≤ 99) := by
  refine ⟨?_, part004MockPrediction_bounds route h10 h20 h21 h30 h31⟩
  unfold getPrediction
  by_cases h1 : (hist.filter (fun s => s.route == route)).isEmpty = true
  · simp only [h1, if_true]
    exact generateMockPrediction_bounds route h10 h20 h30 h31
  · simp only [h1, if_false]
    by_cases h2 : ((hist.filter (fun s => s.route == route)).filter
        (fun s => s.dow == d.dow && s.hour == jsDefaultHour hour)).isEmpty = true
    · simp only [h2, if_true]
      exact generateMockPrediction_bounds route h10 h20 h30 h31
    · simp only [h2, if_false]
      have hne : (hist.filter (fun s => s.route == route)).filter
          (fun s => s.dow == d.dow && s.hour == jsDefaultHour hour) ≠ [] := by
        intro he
        exact h2 (by simp [he])
      have hmemcap : ∀ x ∈ (((hist.filter (fun s => s.route == route)).filter
          (fun s => s.dow == d.dow && s.hour == jsDefaultHour hour)).map
            (fun s => (s.capacity : ℚ))), 1 ≤ x := by
        intro x hx
        rcases List.mem_map.mp hx with ⟨smp, hsmem, rfl⟩
        have : smp ∈ hist :=
          List.mem_of_mem_filter (List.mem_of_mem_filter hsmem)
        exact_mod_cast hcap smp this
      have hmapne : (((hist.filter (fun s => s.route == route)).filter
          (fun s => s.dow == d.dow && s.hour == jsDefaultHour hour)).map
            (fun s => (s.capacity : ℚ))) ≠ [] := by
        simpa using hne
      have havg := meanQ_pos hmapne hmemcap
      refine ⟨le_max_left 0 _, ?_, min_le_left _ _,
        le_min (by norm_num) (le_max_left 60 _), min_le_left _ _⟩
      refine le_min (by norm_num) ?_
      refine jsRound_nonneg (mul_nonneg (div_nonneg ?_ havg.le) (by norm_num))
      exact_mod_cast le_max_left 0 _

/-- A concrete historical sample: route A, day number 5 (a Monday, dow 1),
hour 8, 30 bookings, capacity 50. -/
def demoSample : Sample :=
  { route := "A", dateNum := 5, dow := 1, hour := 8, bookings := 30,
    capacity := 50 }

/-- C7 witness: the amended statement evaluated at a concrete one-sample
dataset and the draws 1/2. -/
theorem prediction_bounds_spec_witness :
    (0 ≤ (getPrediction [demoSample] "A" { month := 10, dow := 1 } none
        (1/2) (1/2) (1/2) (1/2)).predicted_count ∧
     0 ≤ (getPrediction [demoSample] "A" { month := 10, dow := 1 } none
        (1/2) (1/2) (1/2) (1/2)).utilization_pct ∧
     (getPrediction [demoSample] "A" { month := 10, dow := 1 } none
        (1/2) (1/2) (1/2) (1/2)).utilization_pct ≤ 100 ∧
     60 ≤ (getPrediction [demoSample] "A" { month := 10, dow := 1 } none
        (1/2) (1/2) (1/2) (1/2)).confidence ∧
     (getPrediction [demoSample] "A" { month := 10, dow := 1 } none
        (1/2) (1/2) (1/2) (1/2)).confidence ≤ 95) ∧
    (0 ≤ (part004MockPrediction "A" (1/2) (1/2) (1/2)).predicted_count ∧
     0 ≤ (part004MockPrediction "A" (1/2) (1/2) (1/2)).utilization_pct ∧
     (part004MockPrediction "A" (1/2) (1/2) (1/2)).utilization_pct ≤ 100 ∧
     70 ≤ (part004MockPrediction "A" (1/2) (1/2) (1/2)).confidence ∧
     (part004MockPrediction "A" (1/2) (1/2) (1/2)).confidence ≤ 99) :=
  prediction_bounds_spec [demoSample] "A" { month := 10, dow := 1 } none
    (1/2) (1/2) (1/2) (1/2) (by decide)
    (by norm_num) (by norm_num) (by norm_num) (by norm_num) (by norm_num)

/-! ## C8 — forecast total availability, C9 — analytics aggregation -/

/-- A constant stream of Math.random() draws, for concrete evaluation. -/
def zeroRand : RandStream :=
  { heatU := fun _ _ => 0
    heatB := fun _ _ => 0
    weekU := fun _ => 0
    weekB := fun _ => 0
    hourU := fun _ => 0
    hourB := fun _ => 0 }

/-- A throwing map that returns ok preserves the length. -/
theorem mapThrow_ok_length {α β : Type} (f : α → Except String β) :
    ∀ (l : List α) (res : List β), mapThrow f l = Except.ok res →
      res.length = l.length := by
  intro l
  induction l with
  | nil =>
    intro res h
    simp only [mapThrow, Except.ok.injEq] at h
    subst h
    rfl
  | cons a t ih =>
    intro res h
    unfold mapThrow at h
    cases hfa : f a with
    | error e => rw [hfa] at h; exact absurd h (by simp)
    | ok b =>
      rw [hfa] at h
      cases hmt : mapThrow f t with
      | error e => rw [hmt] at h; exact absurd h (by simp)
      | ok bs =>
        rw [hmt] at h
        simp only [Except.ok.injEq] at h
        subst h
        simp [ih bs hmt]

/-- When the recommendations generator returns, its list is non-empty (it
always ends with the monitoring line). -/
theorem generateRecommendationsRes_ne_nil (u : ℚ) (data : List Sample)
    (recs : List String)
    (h : generateRecommendationsRes u data = Except.ok recs) : recs ≠ [] := by
  unfold generateRecommendationsRes at h
  cases hh : generateHourlyTrendRes data with
  | error e => rw [hh] at h; exact absurd h (by simp)
  | ok pts =>
    rw [hh] at h
    simp only [Except.ok.injEq] at h
    subst h
    simp [List.append_eq_nil]

/-- The prediction explanation always contains the closing caveat. -/
theorem generateExplanation_ne_nil (p c t : ℚ) (d : TargetDate) :
    generateExplanation p c t d ≠ [] := by
  unfold generateExplanation
  intro h
  simp [List.append_eq_nil] at h

/-- The heatmap of real data always has 7 rows of 24 cells. -/
theorem generateHeatmapData_structure (data : List Sample) :
    (generateHeatmapData data).length = 7 ∧
    ∀ row ∈ generateHeatmapData data, row.hours.length = 24 := by
  constructor
  · simp [generateHeatmapData, heatmapDayNames]
  · intro row hrow
    simp only [generateHeatmapData, List.mem_map] at hrow
    rcases hrow with ⟨day, hday, hfr⟩
    subst hfr
    dsimp only
    rw [List.length_map, List.length_range]

/-- The mock analytics response is structurally valid: 7 heatmap rows of 24
cells, 7 weekly points, 24 hourly points, non-empty recommendations. -/
theorem generateMockAnalytics_structure (now : Int) (ρ : RandStream) :
    (generateMockAnalytics now ρ).heatmap.length = 7 ∧
    (∀ row ∈ (generateMockAnalytics now ρ).heatmap, row.hours.length = 24) ∧
    (generateMockAnalytics now ρ).weekly.length = 7 ∧
    (generateMockAnalytics now ρ).hourly.length = 24 ∧
    (generateMockAnalytics now ρ).recommendations ≠ [] := by
  refine ⟨by simp [generateMockAnalytics, generateMockHeatmap], ?_,
    by simp [generateMockAnalytics, generateMockWeeklyTrend],
    by simp [generateMockAnalytics, generateMockHourlyTrend],
    by simp [generateMockAnalytics]⟩
  intro row hrow
  simp only [generateMockAnalytics, generateMockHeatmap, List.mem_map,
    List.mem_range] at hrow
  rcases hrow with ⟨di, hdi, hfr⟩
  subst hfr
  simp

/-- A successfully computed analytics response is structurally valid. -/
theorem getAnalyticsCore_structure (routeId : String) (sD eD : Int)
    (data : List Sample) (a : Analytics)
    (h : getAnalyticsCore routeId sD eD data = Except.ok a) :
    a.heatmap.length = 7 ∧ (∀ row ∈ a.heatmap, row.hours.length = 24) ∧
    a.weekly.length = 7 ∧ a.hourly.length = 24 ∧ a.recommendations ≠ [] := by
  unfold getAnalyticsCore at h
  dsimp only at h
  split at h
  · exact absurd h (by simp)
  · rename_i pts hh
    split at h
    · exact absurd h (by simp)
    · rename_i recs hr
      have hlen : pts.length = 24 := by
        unfold generateHourlyTrendRes at hh
        have := mapThrow_ok_length _ (List.range 24) pts hh
        simpa using this
      simp only [Except.ok.injEq] at h
      subst h
      refine ⟨(generateHeatmapData_structure data).1,
        (generateHeatmapData_structure data).2, ?_, hlen,
        generateRecommendationsRes_ne_nil _ data recs hr⟩
      simp [generateWeeklyTrend]

/-- C8: getPrediction and getAnalytics are total functions of their inputs
(every internal JS exception is modelled by Except and caught): the
prediction always carries the requested route and a non-empty explanation
list, and falls back to the service mock when the route has no samples; the
analytics response always has a 7-row × 24-cell heatmap, 7 weekly points, 24
hourly points and non-empty recommendations, and equals the mock analytics
when no sample falls in the window. -/
theorem forecast_total_spec (hist : List Sample) (routeId route : String)
    (d : TargetDate) (hour : Option Int) (rN r1 r2 r3 : ℚ)
    (startDate endDate : Option Int) (now : Int) (ρ : RandStream) :
    (getPrediction hist route d hour rN r1 r2 r3).route = route ∧
    (getPrediction hist route d hour rN r1 r2 r3).explanation ≠ [] ∧
    ((hist.filter (fun s => s.route == route)).isEmpty = true →
      getPrediction hist route d hour rN r1 r2 r3 =
        generateMockPrediction route r1 r2 r3) ∧
    (getAnalytics hist routeId startDate endDate now ρ).heatmap.length = 7 ∧
    (∀ row ∈ (getAnalytics hist routeId startDate endDate now ρ).heatmap,
      row.hours.length = 24) ∧
    (getAnalytics hist routeId startDate endDate now ρ).weekly.length = 7 ∧
    (getAnalytics hist routeId startDate endDate now ρ).hourly.length = 24 ∧
    (getAnalytics hist routeId startDate endDate now ρ).recommendations ≠ [] ∧
    ((hist.filter (fun s =>
        (startDate.getD (now - 30) ≤ s.dateNum : Bool) &&
          (s.dateNum ≤ endDate.getD now : Bool))).isEmpty = true →
      getAnalytics hist routeId startDate endDate now ρ =
        generateMockAnalytics now ρ) := by
  have hpred : (getPrediction hist route d hour rN r1 r2 r3).route = route ∧
      (getPrediction hist route d hour rN r1 r2 r3).explanation ≠ [] ∧
      ((hist.filter (fun s => s.route == route)).isEmpty = true →
        getPrediction hist route d hour rN r1 r2 r3 =
          generateMockPrediction route r1 r2 r3) := by
    unfold getPrediction
    dsimp only
    cases h1 : (hist.filter (fun s => s.route == route)).isEmpty with
    | true =>
      rw [if_pos rfl]
      exact ⟨rfl, by simp [generateMockPrediction], fun _ => rfl⟩
    | false =>
      rw [if_neg (by simp)]
      cases h2 : ((hist.filter (fun s => s.route == route)).filter
          (fun s => s.dow == d.dow && s.hour == jsDefaultHour hour)).isEmpty with
      | true =>
        rw [if_pos rfl]
        exact ⟨rfl, by simp [generateMockPrediction],
          fun hcon => absurd hcon (by simp)⟩
      | false =>
        rw [if_neg (by simp)]
        exact ⟨rfl, generateExplanation_ne_nil _ _ _ _,
          fun hcon => absurd hcon (by simp)⟩
  have hana : (getAnalytics hist routeId startDate endDate now ρ).heatmap.length = 7 ∧
      (∀ row ∈ (getAnalytics hist routeId startDate endDate now ρ).heatmap,
        row.hours.length = 24) ∧
      (getAnalytics hist routeId startDate endDate now ρ).weekly.length = 7 ∧
      (getAnalytics hist routeId startDate endDate now ρ).hourly.length = 24 ∧
      (getAnalytics hist routeId startDate endDate now ρ).recommendations ≠ [] ∧
      ((hist.filter (fun s =>
          (startDate.getD (now - 30) ≤ s.dateNum : Bool) &&
            (s.dateNum ≤ endDate.getD now : Bool))).isEmpty = true →
        getAnalytics hist routeId startDate endDate now ρ =
          generateMockAnalytics now ρ) := by
    unfold getAnalytics
    dsimp only
    cases hE : (hist.filter (fun s =>
        (startDate.getD (now - 30) ≤ s.dateNum : Bool) &&
          (s.dateNum ≤ endDate.getD now : Bool))).isEmpty with
    | true =>
      rw [if_pos rfl]
      have hm := generateMockAnalytics_structure now ρ
      exact ⟨hm.1, hm.2.1, hm.2.2.1, hm.2.2.2.1, hm.2.2.2.2, fun _ => rfl⟩
    | false =>
      rw [if_neg (by simp)]
      cases hc : getAnalyticsCore routeId (startDate.getD (now - 30))
          (endDate.getD now)
          (hist.filter (fun s =>
            (startDate.getD (now - 30) ≤ s.dateNum : Bool) &&
              (s.dateNum ≤ endDate.getD now : Bool))) with
      | error e =>
        have hm := generateMockAnalytics_structure now ρ
        exact ⟨hm.1, hm.2.1, hm.2.2.1, hm.2.2.2.1, hm.2.2.2.2,
          fun hcon => absurd hcon (by simp)⟩
      | ok a2 =>
        have hm := getAnalyticsCore_structure _ _ _ _ _ hc
        exact ⟨hm.1, hm.2.1, hm.2.2.1, hm.2.2.2.1, hm.2.2.2.2,
          fun hcon => absurd hcon (by simp)⟩
  exact ⟨hpred.1, hpred.2.1, hpred.2.2, hana.1, hana.2.1, hana.2.2.1,
    hana.2.2.2.1, hana.2.2.2.2.1, hana.2.2.2.2.2⟩

/-- C8 witness: the mock fallbacks are reached and structurally valid on the
empty dataset. -/
theorem forecast_total_spec_witness :
    getPrediction [] "A" { month := 0, dow := 0 } none 0 0 0 0 =
      generateMockPrediction "A" 0 0 0 ∧
    getAnalytics [] "A" none none 0 zeroRand = generateMockAnalytics 0 zeroRand ∧
    (getAnalytics [] "A" none none 0 zeroRand).recommendations ≠ [] :=
  ⟨(forecast_total_spec [] "A" "A" { month := 0, dow := 0 } none 0 0 0 0
      none none 0 zeroRand).2.2.1 rfl,
   (forecast_total_spec [] "A" "A" { month := 0, dow := 0 } none 0 0 0 0
      none none 0 zeroRand).2.2.2.2.2.2.2.2 rfl,
   (forecast_total_spec [] "A" "A" { month := 0, dow := 0 } none 0 0 0 0
      none none 0 zeroRand).2.2.2.2.2.2.2.1⟩

/-- C9: with one sample (30 bookings, capacity 50, hour 8) inside the
requested window, the hourly-trend generator hits the undefined `dayData`
reference and throws, so getAnalytics falls into its catch branch and
returns the mock analytics — utilization average 65 — instead of the
claimed computed aggregate round(30 / (1 · 50) · 100) = 60. -/
theorem analytics_daydata_bug :
    generateHourlyTrendRes [demoSample] =
      Except.error "ReferenceError: dayData is not defined" ∧
    getAnalytics [demoSample] "A" (some 0) (some 10) 20 zeroRand =
      generateMockAnalytics 20 zeroRand ∧
    (generateMockAnalytics 20 zeroRand).utilization.average = 65 ∧
    claimUtilizationAverage [demoSample] = 60 := by
  refine ⟨rfl, rfl, rfl, ?_⟩
  have h1 : claimUtilizationAverage [demoSample] = jsRound 60 := by
    norm_num [claimUtilizationAverage, meanQ, demoSample]
  have h2 : jsRound (60 : ℚ) = 60 := by
    unfold jsRound
    rw [Int.floor_eq_iff] <;> norm_num
  rw [h1, h2]

end RideX
